import Mathlib

/-!
Verification of the Authentication & Session Management subsystem of the
FYP cyber-defense dashboard.

The definitions below are a shallow embedding of the Python sources:

* auth/password_utils.py      -> hash_password, verify_password
* auth/auth_manager.py        -> authenticate_user
* auth/session_manager.py     -> create_session, clear_session,
                                 check_session_timeout, SESSION_TIMEOUT_MINUTES
* pages/login.py              -> handle_login, render_login_step,
                                 init_session_state (the session-state
                                 bootstrap), max_login_attempts
* pages/Login.py (legacy)     -> verify_credentials
* database/queries.py         -> the shape of the user row returned by
                                 get_user_by_username (structure UserRow) and
                                 the boolean result of update_last_login

Timestamps (datetime.now) are modelled as natural numbers measured in
minutes, passed explicitly as a parameter named now; each embedded call
site that reads the clock several times in quick succession is modelled
with a single now value.  Streamlit session state (st.session_state) is
modelled as an explicit record threaded through the functions.  Fields
that a Python dict lookup may find absent or None are Option-valued.
-/

namespace FYP

/-! ### Model of the bcrypt library (external dependency)

Modelled from the spec: the bcrypt library itself is not part of the
repository, only its call sites are (hash_password, verify_password).
The spec describes it as a salted one-way hash: gensalt draws a fresh
random salt per call, hashpw embeds the salt in the produced hash string,
checkpw recomputes using the embedded salt and compares, and checkpw
raises on a hash string that is not in bcrypt format.

The model below keeps exactly the structure those claims depend on:
the salt supply is a counter (fresh value per call, standing in for
randomness), a hash string is the salt in unary followed by a separator
followed by a digest, and the digest is an injective function of the
password (irreversibility is not modelled; no claim depends on it).
A string with no separator character is not in bcrypt format and makes
checkpw fail, as the real library raises ValueError on a malformed salt.
-/

/-- Salt supply: returns a fresh salt and the next supply state. -/
def bcrypt_gensalt (supply : Nat) : Nat × Nat :=
  (supply, supply + 1)

/-- Encoding of a bcrypt hash string: unary salt, separator, digest. -/
def encodeHash (salt : Nat) (password : String) : String :=
  String.mk (List.replicate salt 's' ++ '$' :: password.data)

/-- Parse the salt part of a bcrypt hash string: count the characters
before the first separator; fail when no separator exists. -/
def splitSalt : List Char → Option (Nat × List Char)
  | [] => none
  | c :: cs =>
    if c = '$' then some (0, cs)
    else
      match splitSalt cs with
      | some (n, rest) => some (n + 1, rest)
      | none => none

/-- bcrypt.hashpw: hash the password bytes with the given salt. -/
def bcrypt_hashpw (passwordBytes : String) (salt : Nat) : String :=
  encodeHash salt passwordBytes

/-- bcrypt.checkpw: recompute with the embedded salt and compare; raises
(.error) when the hash string is not in bcrypt format. -/
def bcrypt_checkpw (passwordBytes hashBytes : String) : Except String Bool :=
  match splitSalt hashBytes.data with
  | none => Except.error "Invalid salt"
  | some (_, digest) => Except.ok (decide (digest = passwordBytes.data))

/-! ### auth/password_utils.py -/

/-- hash_password: generate a salt, hash the password, return the hash
string.  The salt supply is threaded explicitly: the function returns the
hash together with the next supply state. -/
def hash_password (plain_password : String) (supply : Nat) : String × Nat :=
  let (salt, supply') := bcrypt_gensalt supply
  (bcrypt_hashpw plain_password salt, supply')

/-- verify_password: call bcrypt.checkpw inside try/except; any exception
is caught and False is returned. -/
def verify_password (plain_password password_hash : String) : Bool :=
  match bcrypt_checkpw plain_password password_hash with
  | Except.ok b => b
  | Except.error _ => false

/-! ### database/queries.py: the user row

get_user_by_username selects id, username, password_hash, role, email,
last_login, active and returns the row as a dict (or None when no row
matches).  id, username, password_hash and role are populated by every
creation path (init_db.py and create_user both supply them); active is
stored as a SQLite integer 0/1 and is modelled as an Option Bool because
the authentication code reads it with dict.get, treating an absent or
null value as falsy.  email and last_login are never read by the
authentication subsystem and are omitted. -/
structure UserRow where
  id : Nat
  username : String
  password_hash : String
  role : String
  active : Option Bool
  deriving DecidableEq, Repr

/-! ### auth/auth_manager.py -/

/-- The three failure exits of authenticate_user, one per distinct
logged reason (user not found / account inactive / invalid password). -/
inductive AuthReason where
  | not_found
  | inactive
  | bad_password
  deriving DecidableEq, Repr

/-- Result of authenticate_user: the user row on success, the logged
reason on failure (the Python function returns the dict or None; the
reason records which of its distinct failure exits was taken). -/
inductive AuthResult where
  | success (user : UserRow)
  | failure (reason : AuthReason)
  deriving DecidableEq, Repr

/-- authenticate_user: look the user up, refuse an inactive (or
missing-active) account before any password check, otherwise decide by
the hasher's verify.  The directory lookup (get_user_by_username) and
the verifier (verify_password) are parameters so that theorems can
express that a branch consults neither. -/
def authenticate_user (verify : String → String → Bool)
    (lookup : String → Option UserRow)
    (username password : String) : AuthResult :=
  match lookup username with
  | none => AuthResult.failure AuthReason.not_found
  | some user =>
    if ¬ user.active.getD false then
      AuthResult.failure AuthReason.inactive
    else if verify password user.password_hash then
      AuthResult.success user
    else
      AuthResult.failure AuthReason.bad_password

/-! ### auth/session_manager.py -/

def SESSION_TIMEOUT_MINUTES : Nat := 30

/-- The st.session_state fields owned by the session manager.  Every
field that Python may hold as None is Option-valued; authenticated is
read with dict.get(_, False) and is a plain Bool. -/
structure SessionState where
  authenticated : Bool
  user_id : Option Nat
  username : Option String
  role : Option String
  login_time : Option Nat
  session_token : Option Nat
  session_expiry : Option Nat
  deriving DecidableEq, Repr

/-- The logged-out state: authenticated False, every other field None.
This is both what the session-state bootstrap of pages/login.py
produces on first visit and
what clear_session resets to. -/
def clearedSession : SessionState :=
  { authenticated := false
    user_id := none
    username := none
    role := none
    login_time := none
    session_token := none
    session_expiry := none }

/-- create_session: populate every session field from the user row, a
fresh token and the clock, set expiry now + timeout, return True.  The
Python role field is read with user_data.get(the role key, a viewer
default); the key is always present in rows produced by
get_user_by_username, so the value stored is the row's role. -/
def create_session (user_data : UserRow) (now token : Nat) :
    SessionState × Bool :=
  ({ authenticated := true
     user_id := some user_data.id
     username := some user_data.username
     role := some user_data.role
     login_time := some now
     session_token := some token
     session_expiry := some (now + SESSION_TIMEOUT_MINUTES) }, true)

/-- clear_session: reset every session field to the logged-out state and
return True. -/
def clear_session (_s : SessionState) : SessionState × Bool :=
  (clearedSession, true)

/-- check_session_timeout: False when not authenticated or no expiry is
stored; when the clock has passed the expiry, clear the session and
return False; otherwise slide the expiry forward and return True. -/
def check_session_timeout (s : SessionState) (now : Nat) :
    SessionState × Bool :=
  if ¬ s.authenticated then (s, false)
  else
    match s.session_expiry with
    | none => (s, false)
    | some expiry =>
      if now > expiry then ((clear_session s).1, false)
      else ({ s with session_expiry := some (now + SESSION_TIMEOUT_MINUTES) },
            true)

/-- The session invariant of the spec: fully populated with
authenticated True, or exactly the cleared state. -/
def SessionInv (s : SessionState) : Prop :=
  (s.authenticated = true ∧ s.user_id.isSome = true ∧
   s.username.isSome = true ∧ s.role.isSome = true ∧
   s.login_time.isSome = true ∧ s.session_token.isSome = true ∧
   s.session_expiry.isSome = true)
  ∨ s = clearedSession

instance (s : SessionState) : Decidable (SessionInv s) := by
  unfold SessionInv
  infer_instance

/-! ### pages/login.py -/

/-- The login-flow state kept in st.session_state by pages/login.py: the
session fields plus the consecutive-failure counter. -/
structure LoginState where
  session : SessionState
  login_attempts : Nat
  deriving DecidableEq, Repr

/-- The session-state bootstrap of pages/login.py (source name
initialize underscore session underscore state): authenticated False,
identity fields None,
login_attempts 0 (the token and expiry keys are simply absent, which
dict.get reads as None). -/
def init_session_state : LoginState :=
  { session := clearedSession, login_attempts := 0 }

/-- max_login_attempts: read from the security configuration, default 5
when the configuration does not set it. -/
def max_login_attempts (config : Option Nat) : Nat :=
  config.getD 5

/-- handle_login: authenticate; on success create the session, re-set
the identity fields, zero the failure counter, call update_last_login
discarding its boolean result, and return True; on any failure increment
the failure counter and return False.  ull_result is the boolean that
update_last_login returns (the function catches its own storage
exceptions and returns False on them, so a boolean is its entire
observable effect on the flow). -/
def handle_login (verify : String → String → Bool)
    (lookup : String → Option UserRow) (ull_result : Bool)
    (now token : Nat) (st : LoginState)
    (username password : String) : LoginState × Bool :=
  match authenticate_user verify lookup username password with
  | AuthResult.success user_data =>
    let (sess, session_created) := create_session user_data now token
    if session_created then
      ({ session :=
           { sess with
             authenticated := true
             user_id := some user_data.id
             username := some user_data.username
             role := some user_data.role
             login_time := some now }
         login_attempts := 0 }, true)
    else
      ({ st with login_attempts := st.login_attempts + 1 }, false)
  | AuthResult.failure _ =>
    ({ st with login_attempts := st.login_attempts + 1 }, false)

/-- The user-visible outcomes of one pass through render_login_page with
a submitted form. -/
inductive LoginOutcome where
  | locked_out
  | empty_fields
  | logged_in
  | invalid_credentials
  deriving DecidableEq, Repr

/-- render_login_step: one submitted login attempt as render_login_page
processes it.  The lockout check runs first and returns the distinct
locked-out outcome without rendering the form, so neither the directory
nor the verifier is reached; then empty fields are rejected; otherwise
handle_login decides. -/
def render_login_step (max_attempts : Nat)
    (verify : String → String → Bool)
    (lookup : String → Option UserRow) (ull_result : Bool)
    (now token : Nat) (st : LoginState)
    (username password : String) : LoginState × LoginOutcome :=
  if st.login_attempts ≥ max_attempts then
    (st, LoginOutcome.locked_out)
  else if username = "" ∨ password = "" then
    (st, LoginOutcome.empty_fields)
  else
    match handle_login verify lookup ull_result now token st
        username password with
    | (st', true) => (st', LoginOutcome.logged_in)
    | (st', false) => (st', LoginOutcome.invalid_credentials)

/-! ### pages/Login.py (legacy login page) -/

/-- A row of the users table that pages/Login.py queries: a username and
the stored password digest (the page stores sha256 hex digests in a
column named password). -/
structure LegacyUserRow where
  username : String
  password : String
  deriving DecidableEq, Repr

/-- Modelled from the spec: hashlib.sha256(...).hexdigest() is an
external primitive not in the repository; it is modelled as an injective
tagging function.  Only two facts about it reach the claims: distinct
inputs give distinct digests, and a digest is not a bcrypt-format hash
string (it is plain hex, with no bcrypt separator). -/
def sha256_hexdigest (s : String) : String :=
  String.mk ('h' :: 'x' :: s.data)

/-- verify_credentials of pages/Login.py: hash the candidate with sha256
and run SELECT ... WHERE username = ? AND password = ?; the row matches
exactly when the stored password string equals the digest string.  The
acceptance decision is this direct string equality. -/
def verify_credentials (table : List LegacyUserRow)
    (username password : String) : Bool :=
  table.any (fun row =>
    row.username == username && row.password == sha256_hexdigest password)

/-! ### Helper lemmas about the hash encoding -/

theorem data_mk (l : List Char) : (String.mk l).data = l := rfl

theorem splitSalt_encode (salt : Nat) (d : List Char) :
    splitSalt (List.replicate salt 's' ++ '$' :: d) = some (salt, d) := by
  induction salt with
  | zero => simp [splitSalt]
  | succ n ih => simp [splitSalt, List.replicate_succ, ih]

theorem verify_password_hashpw (p : String) (salt : Nat) :
    verify_password p (bcrypt_hashpw p salt) = true := by
  simp [verify_password, bcrypt_checkpw, bcrypt_hashpw, encodeHash, data_mk,
    splitSalt_encode]

theorem encodeHash_salt_ne (p : String) (s1 s2 : Nat) (h : s1 ≠ s2) :
    encodeHash s1 p ≠ encodeHash s2 p := by
  intro he
  apply h
  have h2 := congrArg (fun str => splitSalt str.data) he
  simpa [encodeHash, data_mk, splitSalt_encode] using h2

/-- C8: for every password p and every salt-supply state, verify accepts
the hash produced from p; a second call of hash on the same p (with the
supply state left by the first call) yields a different hash string, and
that one verifies against p as well. -/
theorem hash_verify_roundtrip_salted (p : String) (supply : Nat) :
    verify_password p (hash_password p supply).1 = true ∧
    verify_password p (hash_password p (hash_password p supply).2).1 = true ∧
    (hash_password p supply).1 ≠
      (hash_password p (hash_password p supply).2).1 := by
  refine ⟨verify_password_hashpw p supply, verify_password_hashpw p (supply + 1), ?_⟩
  exact encodeHash_salt_ne p supply (supply + 1) (Nat.ne_of_lt (Nat.lt_succ_self supply))

/-- Witness for C8 at the concrete password pw and initial salt supply:
both produced hashes verify and the two hash strings differ. -/
theorem hash_verify_roundtrip_salted_witness :
    verify_password "pw" (hash_password "pw" 0).1 = true ∧
    verify_password "pw" (hash_password "pw" (hash_password "pw" 0).2).1 = true ∧
    (hash_password "pw" 0).1 ≠ (hash_password "pw" (hash_password "pw" 0).2).1 :=
  hash_verify_roundtrip_salted "pw" 0

/-- C5: verify_password is a total boolean function: when the underlying
bcrypt.checkpw raises (returns .error), the exception is caught and the
result is False; on a malformed hash string (one that does not parse as
a bcrypt hash) checkpw raises, so verify_password returns False; on a
well-formed hash verify_password returns exactly checkpw's verdict. -/
theorem verify_password_never_raises (p h : String) :
    (∀ e, bcrypt_checkpw p h = Except.error e → verify_password p h = false) ∧
    (splitSalt h.data = none →
      bcrypt_checkpw p h = Except.error "Invalid salt" ∧
      verify_password p h = false) ∧
    (∀ b, bcrypt_checkpw p h = Except.ok b → verify_password p h = b) := by
  refine ⟨?_, ?_, ?_⟩
  · intro e he
    simp [verify_password, he]
  · intro hmal
    constructor
    · simp [bcrypt_checkpw, hmal]
    · simp [verify_password, bcrypt_checkpw, hmal]
  · intro b hb
    simp [verify_password, hb]

/-- Witness for C5 at the concrete malformed (non-bcrypt) hash string
deadbeef: checkpw raises and verify_password returns False. -/
theorem verify_password_never_raises_witness :
    bcrypt_checkpw "pw" "deadbeef" = Except.error "Invalid salt" ∧
    verify_password "pw" "deadbeef" = false :=
  (verify_password_never_raises "pw" "deadbeef").2.1 (by decide)

/-- C1: authenticate_user follows the specified algorithm on records
whose active flag carries a boolean: no record means failure not_found;
a record with active False means failure inactive, and because the
verifier is universally quantified here the result is inactive whatever
the verifier would say, so password verification is never consulted and
an inactive account never authenticates even with the correct password;
a record with active True is decided by verify on the stored hash:
success with the record when verify is true, failure bad_password when
it is false. -/
theorem authenticate_user_algorithm (verify : String → String → Bool)
    (lookup : String → Option UserRow) (username password : String) :
    (lookup username = none →
      authenticate_user verify lookup username password =
        AuthResult.failure AuthReason.not_found) ∧
    (∀ u, lookup username = some u → u.active = some false →
      authenticate_user verify lookup username password =
        AuthResult.failure AuthReason.inactive) ∧
    (∀ u, lookup username = some u → u.active = some true →
      authenticate_user verify lookup username password =
        (if verify password u.password_hash then AuthResult.success u
         else AuthResult.failure AuthReason.bad_password)) := by
  refine ⟨?_, ?_, ?_⟩
  · intro hnone
    simp [authenticate_user, hnone]
  · intro u hu ha
    simp [authenticate_user, hu, ha, Option.getD]
  · intro u hu ha
    simp [authenticate_user, hu, ha, Option.getD]

/-- Witness for C1: an inactive record together with a verifier that
accepts everything (the correct password) still fails with inactive. -/
theorem authenticate_user_algorithm_witness :
    authenticate_user (fun _ _ => true)
      (fun _ => some ⟨1, "alice", "hh", "viewer", some false⟩)
      "alice" "Secret123" = AuthResult.failure AuthReason.inactive :=
  (authenticate_user_algorithm (fun _ _ => true)
      (fun _ => some ⟨1, "alice", "hh", "viewer", some false⟩)
      "alice" "Secret123").2.1 ⟨1, "alice", "hh", "viewer", some false⟩ rfl rfl

/-- C10: a record whose active field is absent (dict.get returns the
falsy default) is treated as inactive: authentication fails with
inactive for every verifier, so password verification is not attempted
and such a record never authenticates. -/
theorem authenticate_user_absent_active (verify : String → String → Bool)
    (lookup : String → Option UserRow) (username password : String)
    (u : UserRow) (hu : lookup username = some u) (ha : u.active = none) :
    authenticate_user verify lookup username password =
      AuthResult.failure AuthReason.inactive := by
  simp [authenticate_user, hu, ha, Option.getD]

/-- Witness for C10: a record with no active field and an
accept-everything verifier still fails with inactive. -/
theorem authenticate_user_absent_active_witness :
    authenticate_user (fun _ _ => true)
      (fun _ => some ⟨2, "bob", "hh", "admin", none⟩)
      "bob" "pw" = AuthResult.failure AuthReason.inactive :=
  authenticate_user_absent_active (fun _ _ => true)
    (fun _ => some ⟨2, "bob", "hh", "admin", none⟩)
    "bob" "pw" ⟨2, "bob", "hh", "admin", none⟩ rfl rfl

/-- C4 counterexample: the legacy login page pages/Login.py is an
authentication path of the program that decides password correctness by
direct string equality between the stored column value and the sha256
digest of the candidate (a SQL WHERE password = ? comparison), not via
the Credential Hasher: on the stored digest of admin it accepts the
candidate admin although the hasher's verify, applied to that same
stored value, rejects it (the value is not a bcrypt hash). -/
theorem verify_credentials_direct_equality_cex :
    verify_credentials [⟨"admin", sha256_hexdigest "admin"⟩]
      "admin" "admin" = true ∧
    verify_password "admin" (sha256_hexdigest "admin") = false := by
  constructor
  · rfl
  · rfl

/-- C4 amended: in the primary authentication path (authenticate_user
instantiated with verify_password), password correctness is decided only
through the hasher's verify: every successful authentication has
verify_password true on the stored hash, and for a looked-up active
record, success is equivalent to verify_password accepting. -/
theorem authenticate_user_decides_by_verify
    (lookup : String → Option UserRow) (username password : String) :
    (∀ u, authenticate_user verify_password lookup username password =
        AuthResult.success u →
      verify_password password u.password_hash = true) ∧
    (∀ u, lookup username = some u → u.active.getD false = true →
      (authenticate_user verify_password lookup username password =
          AuthResult.success u ↔
        verify_password password u.password_hash = true)) := by
  constructor
  · intro u hsucc
    unfold authenticate_user at hsucc
    cases hl : lookup username with
    | none => rw [hl] at hsucc; exact absurd hsucc (by simp)
    | some r =>
      rw [hl] at hsucc
      by_cases hact : r.active.getD false
      · by_cases hv : verify_password password r.password_hash
        · simp [hact, hv] at hsucc
          rw [← hsucc]
          exact hv
        · simp [hact, hv] at hsucc
      · simp [hact] at hsucc
  · intro u hu hact
    constructor
    · intro hsucc
      unfold authenticate_user at hsucc
      rw [hu] at hsucc
      by_cases hv : verify_password password u.password_hash
      · exact hv
      · simp [hact, hv] at hsucc
    · intro hv
      simp [authenticate_user, hu, hact, hv]

/-- Witness for the amended C4: a concrete active record whose stored
hash was produced by the hasher authenticates exactly because
verify_password accepts. -/
theorem authenticate_user_decides_by_verify_witness :
    authenticate_user verify_password
      (fun _ => some ⟨1, "admin", encodeHash 0 "admin", "admin", some true⟩)
      "admin" "admin" =
      AuthResult.success ⟨1, "admin", encodeHash 0 "admin", "admin", some true⟩ :=
  ((authenticate_user_decides_by_verify
      (fun _ => some ⟨1, "admin", encodeHash 0 "admin", "admin", some true⟩)
      "admin" "admin").2
    ⟨1, "admin", encodeHash 0 "admin", "admin", some true⟩ rfl rfl).mpr
    (verify_password_hashpw "admin" 0)

/-- C3: check_session_timeout returns expired (False) without touching
the state when no session is active (authenticated False); on an active
session with a stored expiry it clears every field and returns expired
when now is strictly past the expiry, and otherwise — including the
exact boundary now = expiry, which satisfies now ≤ expiry — slides the
expiry forward to now + timeout and returns valid (True). -/
theorem check_session_timeout_spec (s : SessionState) (now : Nat) :
    (s.authenticated = false → check_session_timeout s now = (s, false)) ∧
    (∀ expiry, s.authenticated = true → s.session_expiry = some expiry →
      (expiry < now →
        check_session_timeout s now = (clearedSession, false)) ∧
      (now ≤ expiry →
        check_session_timeout s now =
          ({ s with session_expiry := some (now + SESSION_TIMEOUT_MINUTES) },
           true))) := by
  constructor
  · intro hauth
    simp [check_session_timeout, hauth]
  · intro expiry hauth hexp
    constructor
    · intro hlt
      simp [check_session_timeout, hauth, hexp, hlt, clear_session]
    · intro hle
      simp [check_session_timeout, hauth, hexp, Nat.not_lt.mpr hle]

/-- Witness for C3 at the exact boundary: a fully populated session with
expiry 100 checked at now = 100 is still valid and is slid to 130. -/
theorem check_session_timeout_spec_witness :
    check_session_timeout
      { authenticated := true, user_id := some 1, username := some "alice",
        role := some "admin", login_time := some 70, session_token := some 9,
        session_expiry := some 100 } 100 =
      ({ authenticated := true, user_id := some 1, username := some "alice",
         role := some "admin", login_time := some 70, session_token := some 9,
         session_expiry := some 130 }, true) :=
  ((check_session_timeout_spec
      { authenticated := true, user_id := some 1, username := some "alice",
        role := some "admin", login_time := some 70, session_token := some 9,
        session_expiry := some 100 } 100).2 100 rfl rfl).2 (by decide)

/-- C6: the session invariant (fully populated with authenticated True,
or fully cleared) holds of the initial logged-out state and is preserved
by each of the three operations: create_session always produces a fully
populated state, clear_session always produces the cleared state, and
check_session_timeout maps an invariant state to an invariant state. -/
theorem session_invariant_preserved (u : UserRow) (now token : Nat)
    (s : SessionState) :
    SessionInv clearedSession ∧
    SessionInv (create_session u now token).1 ∧
    SessionInv (clear_session s).1 ∧
    (SessionInv s → SessionInv (check_session_timeout s now).1) := by
  refine ⟨Or.inr rfl, Or.inl (by simp [create_session]), Or.inr rfl, ?_⟩
  intro hs
  cases hs with
  | inl hpop =>
    obtain ⟨hauth, hid, hname, hrole, htime, htok, hexp⟩ := hpop
    cases hexpv : s.session_expiry with
    | none => rw [hexpv] at hexp; simp at hexp
    | some expiry =>
      by_cases hlt : expiry < now
      · simp [check_session_timeout, hauth, hexpv, hlt, clear_session]
        exact Or.inr rfl
      · simp [check_session_timeout, hauth, hexpv, hlt]
        exact Or.inl (by simp [hauth, hid, hname, hrole, htime, htok])
  | inr hclr =>
    subst hclr
    simp [check_session_timeout, clearedSession]
    exact Or.inr rfl

/-- Witness for C6: the preservation conjunct applied to a concrete
fully populated invariant state. -/
theorem session_invariant_preserved_witness :
    SessionInv (check_session_timeout
      { authenticated := true, user_id := some 1, username := some "alice",
        role := some "viewer", login_time := some 0, session_token := some 3,
        session_expiry := some 30 } 40).1 :=
  (session_invariant_preserved ⟨1, "alice", "h", "viewer", some true⟩ 40 3
      { authenticated := true, user_id := some 1, username := some "alice",
        role := some "viewer", login_time := some 0, session_token := some 3,
        session_expiry := some 30 }).2.2.2 (Or.inl (by decide))

/-- C9: clear_session is idempotent: applying it to its own output gives
exactly the same result as one application, and applying it to the
already-cleared state is a no-op that leaves the cleared state and
returns True (no error). -/
theorem clear_session_idempotent (s : SessionState) :
    clear_session (clear_session s).1 = clear_session s ∧
    clear_session clearedSession = (clearedSession, true) :=
  ⟨rfl, rfl⟩

/-- C7: when authentication succeeds, the boolean returned by
update_last_login has no influence on handle_login: the result is the
same for a failing update as for a successful one, the login completes
with True, and the session remains exactly the one create_session built
(authenticated, fully populated).  update_last_login itself catches its
storage exceptions and returns False, so its boolean result is its
entire observable effect on the flow. -/
theorem update_last_login_failure_harmless
    (verify : String → String → Bool) (lookup : String → Option UserRow)
    (now token : Nat) (st : LoginState) (username password : String)
    (u : UserRow)
    (hauth : authenticate_user verify lookup username password =
      AuthResult.success u) (ull_result : Bool) :
    handle_login verify lookup ull_result now token st username password =
      handle_login verify lookup true now token st username password ∧
    (handle_login verify lookup ull_result now token st
        username password).2 = true ∧
    (handle_login verify lookup ull_result now token st
        username password).1.session = (create_session u now token).1 ∧
    (handle_login verify lookup ull_result now token st
        username password).1.session.authenticated = true := by
  refine ⟨rfl, ?_, ?_, ?_⟩ <;> simp [handle_login, hauth, create_session]

/-- Witness for C7: a concrete successful authentication for which the
login completes with True even when update_last_login reports failure. -/
theorem update_last_login_failure_harmless_witness :
    (handle_login verify_password
      (fun _ => some ⟨1, "admin", encodeHash 0 "admin", "admin", some true⟩)
      false 0 9 init_session_state "admin" "admin").2 = true :=
  (update_last_login_failure_harmless verify_password
      (fun _ => some ⟨1, "admin", encodeHash 0 "admin", "admin", some true⟩)
      0 9 init_session_state "admin" "admin"
      ⟨1, "admin", encodeHash 0 "admin", "admin", some true⟩
      (by
        have hv : verify_password "admin" (encodeHash 0 "admin") = true :=
          verify_password_hashpw "admin" 0
        simp [authenticate_user, Option.getD, hv])
      false).2.1

/-- C2: once the failure counter has reached max_attempts, a submitted
attempt is answered with the distinct locked-out outcome for every
verifier (so even a correct password), every directory (so the User
Directory is never consulted: the result does not depend on it) and
every update result, and the state is returned unchanged, so the locked
state persists.  The only transition of render_login_step that lowers
the counter is a successful login, which resets it to 0 — the reset the
implementation provides — and the configuration default for
max_attempts is 5. -/
theorem lockout_spec (max_attempts : Nat)
    (verify : String → String → Bool) (lookup : String → Option UserRow)
    (ull_result : Bool) (now token : Nat) (st : LoginState)
    (username password : String) :
    (st.login_attempts ≥ max_attempts →
      ∀ (verify' : String → String → Bool)
        (lookup' : String → Option UserRow) (ull' : Bool),
        render_login_step max_attempts verify' lookup' ull' now token st
          username password = (st, LoginOutcome.locked_out)) ∧
    (∀ st', render_login_step max_attempts verify lookup ull_result now
        token st username password = (st', LoginOutcome.logged_in) →
      st'.login_attempts = 0) ∧
    (∀ st' out, render_login_step max_attempts verify lookup ull_result now
        token st username password = (st', out) →
      st'.login_attempts < st.login_attempts →
      out = LoginOutcome.logged_in ∧ st'.login_attempts = 0) ∧
    max_login_attempts none = 5 := by
  refine ⟨?_, ?_, ?_, rfl⟩
  · intro hlock verify' lookup' ull'
    simp [render_login_step, hlock]
  · intro st' hrun
    unfold render_login_step at hrun
    by_cases hlock : st.login_attempts ≥ max_attempts
    · simp [hlock] at hrun
    · by_cases hempty : username = "" ∨ password = ""
      · simp [hlock, hempty] at hrun
      · simp [hlock, hempty] at hrun
        unfold handle_login at hrun
        cases hauth : authenticate_user verify lookup username password with
        | success u =>
          simp [hauth, create_session] at hrun
          subst hrun
          rfl
        | failure r =>
          simp [hauth] at hrun
  · intro st' out hrun hdec
    unfold render_login_step at hrun
    by_cases hlock : st.login_attempts ≥ max_attempts
    · simp [hlock] at hrun
      obtain ⟨h1, h2⟩ := hrun
      subst h1
      exact absurd hdec (Nat.lt_irrefl _)
    · by_cases hempty : username = "" ∨ password = ""
      · simp [hlock, hempty] at hrun
        obtain ⟨h1, h2⟩ := hrun
        subst h1
        exact absurd hdec (Nat.lt_irrefl _)
      · simp [hlock, hempty] at hrun
        unfold handle_login at hrun
        cases hauth : authenticate_user verify lookup username password with
        | success u =>
          simp [hauth, create_session] at hrun
          obtain ⟨h1, h2⟩ := hrun
          subst h1
          exact ⟨h2.symm, rfl⟩
        | failure r =>
          simp [hauth] at hrun
          obtain ⟨h1, h2⟩ := hrun
          rw [← h1] at hdec
          simp at hdec

/-- Witness for C2: a counter already at the default limit 5 answers
locked_out, unchanged state, to an attempt carrying a verifier that
accepts everything (a correct password) and a directory holding that
very active user. -/
theorem lockout_spec_witness :
    render_login_step 5 (fun _ _ => true)
      (fun _ => some ⟨1, "alice", "h", "admin", some true⟩) true 0 0
      { session := clearedSession, login_attempts := 5 } "alice" "Secret123"
      = ({ session := clearedSession, login_attempts := 5 },
         LoginOutcome.locked_out) :=
  (lockout_spec 5 (fun _ _ => true)
      (fun _ => some ⟨1, "alice", "h", "admin", some true⟩) true 0 0
      { session := clearedSession, login_attempts := 5 }
      "alice" "Secret123").1 (Nat.le_refl 5) (fun _ _ => true)
    (fun _ => some ⟨1, "alice", "h", "admin", some true⟩) true

end FYP

